import Mathlib

/-!
Verification of the pico-sht30 firmware (`src/firmware/pico-sht30/main.py` and
the SHT-30 driver `sht30.py`) against its natural-language specification.

The Python code is shallowly embedded: pure functions become Lean functions,
the stateful acquisition loop becomes explicit state passing over a `LoopState`
record, machine integers are `Nat` with explicit masking where the code masks,
and fallible operations return `Except`/`Option`.
-/

namespace Sht30

/-! ## Checksum unit (`SHT30._crc8`, sht30.py lines 44-62)

Python integers are unbounded, so the register in the source grows with each
left shift and is masked to 8 bits only by the final `return crc & 0xFF`.
`crc8Step` is one iteration of the inner loop, `crc8Rounds` the 8-iteration
inner loop, `crc8` the whole function. -/

def crc8Step (crc : Nat) : Nat :=
  if crc &&& 0x80 ≠ 0 then (crc <<< 1) ^^^ 0x31 else crc <<< 1

def crc8Rounds : Nat → Nat → Nat
  | 0, crc => crc
  | n + 1, crc => crc8Rounds n (crc8Step crc)

def crc8 (data : List Nat) : Nat :=
  (data.foldl (fun crc b => crc8Rounds 8 (crc ^^^ b)) 0xFF) &&& 0xFF

/-! A second definition following the specification's words (section 4.1):
"initialize an 8-bit register to 0xFF; for each input byte, XOR into the
register, then for 8 iterations, if the high bit is set, shift left and XOR
with polynomial 0x31, else shift left; mask to 8 bits after each iteration."
The register is masked to 8 bits after every iteration rather than once at
the end. -/

def crc8SpecStep (crc : Nat) : Nat :=
  (if crc &&& 0x80 ≠ 0 then (crc <<< 1) ^^^ 0x31 else crc <<< 1) % 256

def crc8SpecRounds : Nat → Nat → Nat
  | 0, crc => crc
  | n + 1, crc => crc8SpecRounds n (crc8SpecStep crc)

def crc8Spec (data : List Nat) : Nat :=
  data.foldl (fun crc b => crc8SpecRounds 8 (crc ^^^ b)) 0xFF

/-! ## Temperature/humidity driver (`SHT30.measure`, sht30.py lines 94-149)

`measure` is embedded from the point where the 6-byte frame has been read from
the bus (line 125): the command selection and settling delays are timing-level
I/O with no effect on the returned value.  The two `RuntimeError` raises for
checksum mismatch (lines 128-133) become `Except.error`; raw-to-physical
conversion is exact rational arithmetic in place of Python floats. -/

structure Reading where
  temperature : ℚ
  humidity : ℚ
  deriving DecidableEq, Repr

inductive DriverError where
  | checksumTemp
  | checksumHum
  deriving DecidableEq, Repr

/-- `humidity = max(0, min(100, 100 * hum_raw / 65535))` (sht30.py lines 141-144). -/
def humidityFromRaw (raw : Nat) : ℚ :=
  max 0 (min 100 (100 * (raw : ℚ) / 65535))

/-- `temperature = -45 + (175 * temp_raw / 65535)` (sht30.py line 140). -/
def temperatureFromRaw (raw : Nat) : ℚ :=
  -45 + 175 * (raw : ℚ) / 65535

/-- sht30.py lines 125-146, on the 6 bytes returned by the bus read. -/
def measure (b0 b1 b2 b3 b4 b5 : Nat) : Except DriverError Reading :=
  if crc8 [b0, b1] ≠ b2 then .error .checksumTemp
  else if crc8 [b3, b4] ≠ b5 then .error .checksumHum
  else
    .ok { temperature := temperatureFromRaw ((b0 <<< 8) ||| b1)
          humidity := humidityFromRaw ((b3 <<< 8) ||| b4) }

/-! ## Light classifier (`determine_light_state`, main.py lines 282-289)

The source reads the thresholds from the module-level configuration constants
`LIGHT_THRESHOLD_LOW` / `LIGHT_THRESHOLD_HIGH`; they are passed here as
parameters. -/

inductive LightState where
  | dark
  | normal
  | bright
  deriving DecidableEq, Repr

def determine_light_state (light_percent low high : ℚ) : LightState :=
  if light_percent < low then .dark
  else if light_percent > high then .bright
  else .normal

/-! ## The acquisition loop (`main`, main.py lines 349-450)

The module-level configuration constants become a `Config`, the module-level
mutable globals plus the two loop locals (`error_count`, `last_sensor_reading`)
become a `LoopState`, and the outside world seen by one loop iteration (clock,
PIR line, bus data, publish outcomes) becomes an `Env` oracle.  `time.time()`
is called once at line 355 and once inside `check_motion_sensor` at line 207;
within one iteration both calls are modelled by the same value `Env.time`.
Publishes are observable `Event`s carrying their success flag, since
`publish_sensor_data` / `publish_motion_event` / `publish_light_data` swallow
their own exceptions and report success as a boolean.  `machine.reset()`
becomes the `restart` flag / `Event.restart`. -/

structure Config where
  pirEnabled : Bool
  lightEnabled : Bool
  pirTimeout : Nat
  readingInterval : Nat
  lightReadingInterval : Nat
  lightLow : ℚ
  lightHigh : ℚ
  maxErrors : Nat
  deriving Repr

structure Env where
  time : Nat
  pir : Bool
  motionPubOk : Bool
  readResult : Except Unit (ℚ × ℚ)
  lightLevel : Option ℚ
  lightPubOk : Bool
  thPubOk : Bool
  deriving Repr

structure LoopState where
  motionDetected : Bool
  lastMotionTime : Nat
  motionStateSent : Bool
  lightLevelPercent : ℚ
  lastLightReading : Nat
  lastLightState : Option LightState
  errorCount : Nat
  lastSensorReading : Nat
  deriving DecidableEq, Repr

/-- Initial values of the globals (main.py lines 48-56) and loop locals
(lines 350-351); `last_light_state = "unknown"` is `none`. -/
def initState : LoopState :=
  { motionDetected := false
    lastMotionTime := 0
    motionStateSent := false
    lightLevelPercent := 0
    lastLightReading := 0
    lastLightState := none
    errorCount := 0
    lastSensorReading := 0 }

inductive Event where
  | motion (value : Bool) (ok : Bool)
  | light (s : LightState) (ok : Bool)
  | tempHum (ok : Bool)
  | restart
  deriving DecidableEq, Repr

/-! ### Method tables

main.py imports `SHT30` from sht30.py (line 21) and then defines a second,
module-level `class SHT30` (lines 58-90) whose only methods are `__init__`
and `read_data`.  The later definition rebinds the module-level name, so
`SHT30(i2c)` at line 325 constructs the local class. -/

def importedSHT30Methods : List String :=
  ["__init__", "_check_sensor", "_crc8", "soft_reset", "read_status",
   "measure", "read_temperature_humidity", "read_temperature", "read_humidity"]

def localSHT30Methods : List String :=
  ["__init__", "read_data"]

/-- The class the name `SHT30` denotes in main.py's module namespace after
line 58 has executed: the local definition shadows the import. -/
def mainSHT30Methods : List String := localSHT30Methods

/-- Python attribute dispatch for `sensor.read_temperature_humidity()` at
main.py line 370: if the object's class lacks the method, the call raises
`AttributeError` (`.error ()`); otherwise the call's outcome is the oracle. -/
def callReadTempHum (methods : List String) (oracle : Except Unit (ℚ × ℚ)) :
    Except Unit (ℚ × ℚ) :=
  if "read_temperature_humidity" ∈ methods then oracle else .error ()

/-- `check_motion_sensor` (main.py lines 200-234) acting on the globals
`motion_detected`, `last_motion_time`, `motion_state_sent`; returns the new
globals and the function's return value. -/
def check_motion_sensor (cfg : Config) (t : Nat) (pir : Bool) (st : LoopState) :
    LoopState × Bool :=
  if !cfg.pirEnabled then (st, false)
  else if pir then
    if !st.motionDetected then
      ({ st with motionDetected := true, lastMotionTime := t,
                 motionStateSent := false }, true)
    else
      ({ st with lastMotionTime := t }, true)
  else
    if st.motionDetected then
      if t - st.lastMotionTime ≥ cfg.pirTimeout then
        ({ st with motionDetected := false, motionStateSent := false }, false)
      else (st, st.motionDetected)
    else (st, st.motionDetected)

/-- Motion section of one loop iteration (main.py lines 358-366): call
`check_motion_sensor`, and if its return value differs from
`motion_state_sent`, attempt `publish_motion_event`; only a successful publish
updates `motion_state_sent`. -/
def motionSection (cfg : Config) (env : Env) (st : LoopState) :
    LoopState × List Event :=
  if cfg.pirEnabled then
    let r := check_motion_sensor cfg env.time env.pir st
    if r.2 ≠ r.1.motionStateSent then
      if env.motionPubOk then
        ({ r.1 with motionStateSent := r.2 }, [.motion r.2 true])
      else (r.1, [.motion r.2 false])
    else (r.1, [])
  else (st, [])

/-- Light section of the full sensor cycle (main.py lines 372-390): read the
light sensor, classify, and publish when the classification changed or the
light heartbeat interval elapsed; only a successful publish updates
`last_light_state` and `last_light_reading`.  A failed light publish changes
nothing else — in particular it does not touch `error_count`. -/
def lightSection (cfg : Config) (env : Env) (st : LoopState) :
    LoopState × List Event :=
  if cfg.lightEnabled then
    match env.lightLevel with
    | none => (st, [])
    | some lv =>
        let cls := determine_light_state lv cfg.lightLow cfg.lightHigh
        let st1 := { st with lightLevelPercent := lv }
        if some cls ≠ st1.lastLightState ∨
            env.time - st1.lastLightReading ≥ cfg.lightReadingInterval then
          if env.lightPubOk then
            ({ st1 with lastLightState := some cls,
                        lastLightReading := env.time }, [.light cls true])
          else (st1, [.light cls false])
        else (st1, [])
  else (st, [])

/-- One iteration of the main sensor loop (main.py lines 353-450).  Returns
the new state, the publish events of the iteration, and whether
`machine.reset()` was invoked (line 412 on the normal path, line 431 in the
generic exception handler that catches a failed sensor read at line 370). -/
def loopIter (cfg : Config) (methods : List String) (env : Env)
    (st : LoopState) : LoopState × List Event × Bool :=
  let m := motionSection cfg env st
  let st1 := m.1
  if env.time - st1.lastSensorReading ≥ cfg.readingInterval then
    match callReadTempHum methods env.readResult with
    | .error _ =>
        let st2 := { st1 with errorCount := st1.errorCount + 1 }
        (st2, m.2, st2.errorCount ≥ cfg.maxErrors)
    | .ok _ =>
        let l := lightSection cfg env st1
        let st2 :=
          if env.thPubOk then
            { l.1 with errorCount := 0, lastSensorReading := env.time }
          else
            { l.1 with errorCount := l.1.errorCount + 1,
                       lastSensorReading := env.time }
        (st2, m.2 ++ l.2 ++ [.tempHum env.thPubOk],
         st2.errorCount ≥ cfg.maxErrors)
  else
    (st1, m.2, st1.errorCount ≥ cfg.maxErrors)

/-- Run the loop over a list of per-iteration environments, stopping (as
`machine.reset()` does) when a restart fires. -/
def runLoop (cfg : Config) (methods : List String) :
    LoopState → List Env → LoopState × List Event × Bool
  | st, [] => (st, [], false)
  | st, e :: es =>
      let r := loopIter cfg methods e st
      if r.2.2 then (r.1, r.2.1 ++ [.restart], true)
      else
        let rest := runLoop cfg methods r.1 es
        (rest.1, r.2.1 ++ rest.2.1, rest.2.2)

/-! ### Concrete configurations, environments and runs used by the
concrete theorems below. -/

/-- PIR-only configuration: timeout 2 time units, sensor cycle effectively
disabled by a large reading interval. -/
def pirCfg : Config :=
  { pirEnabled := true, lightEnabled := false, pirTimeout := 2,
    readingInterval := 1000, lightReadingInterval := 1000,
    lightLow := 10, lightHigh := 80, maxErrors := 1000 }

/-- A motion-only iteration environment at time `t` with PIR line `p` and
motion publish outcome `ok`. -/
def mEnv (t : Nat) (p : Bool) (ok : Bool) : Env :=
  { time := t, pir := p, motionPubOk := ok, readResult := .error (),
    lightLevel := none, lightPubOk := true, thPubOk := true }

/-- Light-enabled configuration with thresholds 10/80, a cycle due every
iteration, and a long light heartbeat. -/
def lightCfg : Config :=
  { pirEnabled := false, lightEnabled := true, pirTimeout := 2,
    readingInterval := 0, lightReadingInterval := 1000,
    lightLow := 10, lightHigh := 80, maxErrors := 1000 }

/-- Environment for one full sensor cycle: the read succeeds, the light level
is 50%, the light publish fails, the temperature+humidity publish succeeds. -/
def lightEnv : Env :=
  { time := 0, pir := false, motionPubOk := true, readResult := .ok (20, 50),
    lightLevel := some 50, lightPubOk := false, thPubOk := true }

/-- Sensors-disabled configuration with error ceiling `n` and a cycle due
every iteration. -/
def cfgF (n : Nat) : Config :=
  { pirEnabled := false, lightEnabled := false, pirTimeout := 0,
    readingInterval := 0, lightReadingInterval := 0,
    lightLow := 10, lightHigh := 80, maxErrors := n }

/-- Environment for a failing sensor cycle: the read succeeds but the
temperature+humidity publish fails. -/
def envF : Env :=
  { time := 0, pir := false, motionPubOk := true, readResult := .ok (0, 0),
    lightLevel := none, lightPubOk := true, thPubOk := false }

/-- `initState` with error counter `e`. -/
def stE (e : Nat) : LoopState := { initState with errorCount := e }

/-- Fold `check_motion_sensor` over a list of (time, PIR sample) pairs. -/
def motionSamples (cfg : Config) (st : LoopState) (l : List (Nat × Bool)) :
    LoopState :=
  l.foldl (fun s tp => (check_motion_sensor cfg tp.1 tp.2 s).1) st

/-! ## Helper lemmas for the checksum unit -/

lemma crc8SpecStep_eq (a : Nat) : crc8SpecStep a = crc8Step a % 256 := by
  unfold crc8SpecStep crc8Step
  split <;> rfl

lemma testBit_mod256 (a i : Nat) :
    (a % 256).testBit i = (decide (i < 8) && a.testBit i) := by
  have h256 : (256 : Nat) = 2 ^ 8 := by norm_num
  rw [h256, Nat.testBit_mod_two_pow]

lemma testBit_small (b i : Nat) (hb : b < 256) (h : 8 ≤ i) :
    b.testBit i = false := by
  apply Nat.testBit_lt_two_pow
  calc b < 256 := hb
    _ = 2 ^ 8 := by norm_num
    _ ≤ 2 ^ i := Nat.pow_le_pow_right (show 0 < 2 by norm_num) h

lemma and128_mod (a : Nat) : (a % 256) &&& 128 = a &&& 128 := by
  apply Nat.eq_of_testBit_eq
  intro i
  simp only [Nat.testBit_and, testBit_mod256]
  rcases Nat.lt_or_ge i 8 with h | h
  · simp [h]
  · have h128 : (128 : Nat).testBit i = false :=
      testBit_small 128 i (by norm_num) h
    simp [h128]

lemma shl1_mod (a : Nat) : ((a % 256) <<< 1) % 256 = (a <<< 1) % 256 := by
  simp only [Nat.shiftLeft_eq, pow_one]
  omega

lemma shl1_xor49_mod (a : Nat) :
    (((a % 256) <<< 1) ^^^ 49) % 256 = ((a <<< 1) ^^^ 49) % 256 := by
  apply Nat.eq_of_testBit_eq
  intro i
  simp only [testBit_mod256, Nat.testBit_xor, Nat.testBit_shiftLeft]
  rcases Nat.lt_or_ge i 8 with h | h
  · have h1 : i - 1 < 8 := by omega
    simp [h, h1]
  · simp [Nat.not_lt.mpr h]

lemma crc8Step_mod (a : Nat) : crc8Step (a % 256) % 256 = crc8Step a % 256 := by
  unfold crc8Step
  rw [and128_mod]
  split
  · exact shl1_xor49_mod a
  · exact shl1_mod a

lemma crc8SpecRounds_mod (n : Nat) :
    ∀ a : Nat, crc8SpecRounds n (a % 256) = crc8Rounds n a % 256 := by
  induction n with
  | zero => intro a; rfl
  | succ n ih =>
      intro a
      show crc8SpecRounds n (crc8SpecStep (a % 256)) = crc8Rounds n (crc8Step a) % 256
      rw [crc8SpecStep_eq, crc8Step_mod]
      exact ih (crc8Step a)

lemma xor_byte_mod (a b : Nat) (hb : b < 256) :
    (a % 256) ^^^ b = (a ^^^ b) % 256 := by
  apply Nat.eq_of_testBit_eq
  intro i
  simp only [testBit_mod256, Nat.testBit_xor]
  rcases Nat.lt_or_ge i 8 with h | h
  · simp [h]
  · have hb8 : b.testBit i = false := testBit_small b i hb h
    simp [Nat.not_lt.mpr h, hb8]

lemma crc8_fold_mod :
    ∀ (data : List Nat) (c : Nat), (∀ b ∈ data, b < 256) →
      data.foldl (fun s b => crc8SpecRounds 8 (s ^^^ b)) (c % 256)
        = (data.foldl (fun s b => crc8Rounds 8 (s ^^^ b)) c) % 256 := by
  intro data
  induction data with
  | nil => intro c _; rfl
  | cons b rest ih =>
      intro c hmem
      have hb : b < 256 := hmem b (List.mem_cons_self b rest)
      show rest.foldl _ (crc8SpecRounds 8 ((c % 256) ^^^ b))
        = (rest.foldl _ (crc8Rounds 8 (c ^^^ b))) % 256
      rw [xor_byte_mod c b hb, crc8SpecRounds_mod]
      exact ih (crc8Rounds 8 (c ^^^ b)) (fun x hx => hmem x (List.mem_cons_of_mem b hx))

lemma crc8_eq_mod (data : List Nat) :
    crc8 data = (data.foldl (fun s b => crc8Rounds 8 (s ^^^ b)) 0xFF) % 256 := by
  show _ &&& 0xFF = _
  have h255 : (0xFF : Nat) = 2 ^ 8 - 1 := by norm_num
  rw [h255, Nat.and_pow_two_sub_one_eq_mod]

lemma crc8_eq_crc8Spec (data : List Nat) (h : ∀ b ∈ data, b < 256) :
    crc8 data = crc8Spec data := by
  rw [crc8_eq_mod, ← crc8_fold_mod data 0xFF h]
  rfl

lemma crc8_lt_256 (data : List Nat) : crc8 data < 256 := by
  rw [crc8_eq_mod]
  exact Nat.mod_lt _ (by norm_num)

/-! ## Claim theorems -/

/-- C7: `checksum(bytes)` (the `_crc8` method) is a total function over
arbitrary-length byte input; it agrees with the reference CRC-8 that uses an
8-bit register seeded with 0xFF, polynomial 0x31, XOR-in of each byte and 8
shift-or-shift-xor iterations with the register masked to 8 bits after each
iteration; its result is always a byte in [0, 255]; and on the test vector
[0x00, 0x00] it equals the reference value (0x81). -/
theorem C7_crc8_matches_reference :
    (∀ data : List Nat, (∀ b ∈ data, b < 256) →
        crc8 data = crc8Spec data ∧ crc8 data < 256) ∧
    crc8 [0x00, 0x00] = crc8Spec [0x00, 0x00] ∧
    crc8 [0x00, 0x00] = 0x81 := by
  refine ⟨fun data h => ⟨crc8_eq_crc8Spec data h, crc8_lt_256 data⟩, ?_, ?_⟩
  · rfl
  · rfl

/-- Witness for C7 at the concrete input [0xBE, 0xEF] (the SHT-3x datasheet
test vector, whose CRC is 0x92). -/
theorem C7_crc8_matches_reference_witness :
    crc8 [0xBE, 0xEF] = crc8Spec [0xBE, 0xEF] ∧ crc8 [0xBE, 0xEF] < 256 :=
  C7_crc8_matches_reference.1 [0xBE, 0xEF] (by decide)

/-- C5: for every 6-byte frame in which byte 2 is not the checksum of bytes
[0:2] or byte 5 is not the checksum of bytes [3:5], `measure` fails with a
checksum error and returns no `Reading`. -/
theorem C5_checksum_mismatch_rejects_frame :
    ∀ b0 b1 b2 b3 b4 b5 : Nat,
      crc8 [b0, b1] ≠ b2 ∨ crc8 [b3, b4] ≠ b5 →
      (measure b0 b1 b2 b3 b4 b5 = .error .checksumTemp ∨
       measure b0 b1 b2 b3 b4 b5 = .error .checksumHum) ∧
      (measure b0 b1 b2 b3 b4 b5).toOption = none := by
  intro b0 b1 b2 b3 b4 b5 h
  by_cases h1 : crc8 [b0, b1] ≠ b2
  · refine ⟨Or.inl ?_, ?_⟩ <;> simp [measure, h1, Except.toOption]
  · have h2 : crc8 [b3, b4] ≠ b5 := by
      rcases h with h | h
      · exact absurd h h1
      · exact h
    refine ⟨Or.inr ?_, ?_⟩ <;> simp [measure, h1, h2, Except.toOption]

/-- Witness for C5 on the all-zero frame: `crc8 [0,0] = 0x81 ≠ 0`, so the
frame is rejected. -/
theorem C5_checksum_mismatch_rejects_frame_witness :
    (measure 0 0 0 0 0 0 = .error .checksumTemp ∨
     measure 0 0 0 0 0 0 = .error .checksumHum) ∧
    (measure 0 0 0 0 0 0).toOption = none :=
  C5_checksum_mismatch_rejects_frame 0 0 0 0 0 0 (Or.inl (by decide))

/-- C9: the decoded humidity `clamp(100 * hum_raw / 65535, 0, 100)` maps raw
0 to 0, raw 65535 to 100, and lies in [0, 100] for every 16-bit raw count. -/
theorem C9_humidity_decode_range :
    (∀ raw : Nat, raw < 65536 →
        0 ≤ humidityFromRaw raw ∧ humidityFromRaw raw ≤ 100) ∧
    humidityFromRaw 0 = 0 ∧ humidityFromRaw 65535 = 100 := by
  refine ⟨fun raw _ => ⟨le_max_left 0 _, ?_⟩, ?_, ?_⟩
  · exact max_le (by norm_num) (min_le_left 100 _)
  · unfold humidityFromRaw
    norm_num
  · unfold humidityFromRaw
    norm_num

/-- Witness for C9 at raw count 30000. -/
theorem C9_humidity_decode_range_witness :
    0 ≤ humidityFromRaw 30000 ∧ humidityFromRaw 30000 ≤ 100 :=
  C9_humidity_decode_range.1 30000 (by norm_num)

/-- C8: for thresholds with `low < high`, `determine_light_state` returns
`dark` exactly when `percent < low`, `bright` exactly when `percent > high`,
and `normal` otherwise; both thresholds themselves classify as `normal`
(`classify(10,10,80) = classify(80,10,80) = normal`); and out-of-range
percentages are classified as-is without clamping. -/
theorem C8_light_classification :
    (∀ p low high : ℚ, low < high →
        (determine_light_state p low high = .dark ↔ p < low) ∧
        (determine_light_state p low high = .bright ↔ high < p) ∧
        (determine_light_state p low high = .normal ↔ low ≤ p ∧ p ≤ high)) ∧
    determine_light_state 10 10 80 = .normal ∧
    determine_light_state 80 10 80 = .normal ∧
    determine_light_state (-5) 10 80 = .dark ∧
    determine_light_state 150 10 80 = .bright := by
  refine ⟨?_, ?_, ?_, ?_, ?_⟩
  · intro p low high hlh
    unfold determine_light_state
    split_ifs with h1 h2
    · refine ⟨by simp [h1], ?_, ?_⟩
      · simp only [reduceCtorEq, false_iff]
        intro hc
        linarith
      · simp only [reduceCtorEq, false_iff]
        rintro ⟨hc, _⟩
        linarith
    · refine ⟨?_, by simp [h2], ?_⟩
      · simp only [reduceCtorEq, false_iff]
        exact h1
      · simp only [reduceCtorEq, false_iff]
        rintro ⟨_, hc⟩
        exact absurd h2 (not_lt.mpr hc)
    · refine ⟨?_, ?_, ?_⟩
      · simp only [reduceCtorEq, false_iff]
        exact h1
      · simp only [reduceCtorEq, false_iff]
        exact h2
      · simp only [true_iff]
        exact ⟨not_lt.mp h1, not_lt.mp h2⟩
  · norm_num [determine_light_state]
  · norm_num [determine_light_state]
  · norm_num [determine_light_state]
  · norm_num [determine_light_state]

/-- Witness for C8 at percent 5 with thresholds 10/80. -/
theorem C8_light_classification_witness :
    (determine_light_state 5 10 80 = .dark ↔ (5 : ℚ) < 10) :=
  (C8_light_classification.1 5 10 80 (by norm_num)).1

/-! ## Helper lemmas for the acquisition loop -/

lemma check_motion_sensor_preserves (cfg : Config) (t : Nat) (pir : Bool)
    (st : LoopState) :
    (check_motion_sensor cfg t pir st).1.errorCount = st.errorCount ∧
    (check_motion_sensor cfg t pir st).1.lastSensorReading = st.lastSensorReading := by
  unfold check_motion_sensor
  split_ifs <;> simp

lemma motionSection_preserves (cfg : Config) (env : Env) (st : LoopState) :
    (motionSection cfg env st).1.errorCount = st.errorCount ∧
    (motionSection cfg env st).1.lastSensorReading = st.lastSensorReading := by
  have h := check_motion_sensor_preserves cfg env.time env.pir st
  simp only [motionSection]
  split_ifs <;> simp_all

lemma motionSection_events (cfg : Config) (env : Env) (st : LoopState) :
    ∀ e ∈ (motionSection cfg env st).2, ∃ v ok, e = Event.motion v ok := by
  simp only [motionSection]
  split_ifs <;> intro e he <;> simp at he <;> subst he <;> exact ⟨_, _, rfl⟩

lemma lightSection_preserves (cfg : Config) (env : Env) (st : LoopState) :
    (lightSection cfg env st).1.errorCount = st.errorCount ∧
    (lightSection cfg env st).1.lastSensorReading = st.lastSensorReading := by
  simp only [lightSection]
  cases henv : env.lightLevel <;> split_ifs <;> simp_all <;>
    split_ifs <;> simp_all

/-- C1: the local `SHT30` class in main.py (lines 58-90) shadows the `SHT30`
imported from sht30.py, and lacks `read_temperature_humidity`; hence every
attribute dispatch of that name raises `AttributeError`, and every loop
iteration in which a full sensor cycle is due takes the generic exception
handler: the error counter is incremented, `last_sensor_reading` is not
updated, and no temperature/humidity publish occurs on the normal path. -/
theorem C1_shadowed_class_attribute_error :
    ("read_temperature_humidity" ∈ importedSHT30Methods ∧
     "read_temperature_humidity" ∉ mainSHT30Methods) ∧
    (∀ r, callReadTempHum mainSHT30Methods r = .error ()) ∧
    (∀ cfg env st, env.time - st.lastSensorReading ≥ cfg.readingInterval →
      (loopIter cfg mainSHT30Methods env st).1.errorCount = st.errorCount + 1 ∧
      (loopIter cfg mainSHT30Methods env st).1.lastSensorReading
        = st.lastSensorReading ∧
      ∀ ok, Event.tempHum ok ∉ (loopIter cfg mainSHT30Methods env st).2.1) := by
  refine ⟨⟨by decide, by decide⟩, fun r => rfl, ?_⟩
  intro cfg env st hdue
  have hm := motionSection_preserves cfg env st
  have hdue1 : env.time - (motionSection cfg env st).1.lastSensorReading
      ≥ cfg.readingInterval := by rw [hm.2]; exact hdue
  have hcall : callReadTempHum mainSHT30Methods env.readResult = .error () := rfl
  simp only [loopIter, hcall, if_pos hdue1]
  refine ⟨by simp [hm.1], by simp [hm.2], ?_⟩
  intro ok hmem
  obtain ⟨v, k, he⟩ := motionSection_events cfg env st _ hmem
  exact Event.noConfusion he

/-- Witness for C1: a due cycle with the shadowed class at a concrete
configuration and environment. -/
theorem C1_shadowed_class_attribute_error_witness :
    (loopIter (cfgF 1000) mainSHT30Methods envF initState).1.errorCount
      = initState.errorCount + 1 ∧
    (loopIter (cfgF 1000) mainSHT30Methods envF initState).1.lastSensorReading
      = initState.lastSensorReading ∧
    Event.tempHum true ∉ (loopIter (cfgF 1000) mainSHT30Methods envF initState).2.1 :=
  ⟨(C1_shadowed_class_attribute_error.2.2 (cfgF 1000) envF initState (by decide)).1,
   (C1_shadowed_class_attribute_error.2.2 (cfgF 1000) envF initState (by decide)).2.1,
   (C1_shadowed_class_attribute_error.2.2 (cfgF 1000) envF initState (by decide)).2.2 true⟩

/-- C6 counterexample: with timeout 2 and unit spacing, the sample sequence
[true, false, false] already leaves the state Idle after the third sample
(elapsed = 2 ≥ timeout), refuting "remains Active after samples 2-3". -/
theorem C6_counterexample_idle_after_sample_three :
    (motionSamples pirCfg initState [(0, true), (1, false), (2, false)]).motionDetected
      ≠ true := by
  decide

/-- C6 amended: the transition function is as claimed (rising edge sets
Active and last-seen; true samples refresh last-seen; a false sample clears
Active once elapsed ≥ timeout; otherwise state and last-seen are unchanged),
but on samples [true, false, false, false] with timeout 2 and unit spacing the
state is Active after samples 1-2 and Idle from sample 3 on (at sample 3 the
elapsed time equals the timeout and the `>=` comparison fires). -/
theorem C6_amended_motion_transition :
    (∀ cfg t pir st, cfg.pirEnabled = true →
      (pir = true → st.motionDetected = false →
        (check_motion_sensor cfg t pir st).1.motionDetected = true ∧
        (check_motion_sensor cfg t pir st).1.lastMotionTime = t) ∧
      (pir = true → st.motionDetected = true →
        (check_motion_sensor cfg t pir st).1.motionDetected = true ∧
        (check_motion_sensor cfg t pir st).1.lastMotionTime = t) ∧
      (pir = false → st.motionDetected = true →
        t - st.lastMotionTime ≥ cfg.pirTimeout →
        (check_motion_sensor cfg t pir st).1.motionDetected = false) ∧
      (pir = false → st.motionDetected = true →
        t - st.lastMotionTime < cfg.pirTimeout →
        (check_motion_sensor cfg t pir st).1 = st) ∧
      (pir = false → st.motionDetected = false →
        (check_motion_sensor cfg t pir st).1 = st)) ∧
    (motionSamples pirCfg initState [(0, true)]).motionDetected = true ∧
    (motionSamples pirCfg initState [(0, true), (1, false)]).motionDetected = true ∧
    (motionSamples pirCfg initState
        [(0, true), (1, false), (2, false)]).motionDetected = false ∧
    (motionSamples pirCfg initState
        [(0, true), (1, false), (2, false), (3, false)]).motionDetected = false := by
  refine ⟨?_, by decide, by decide, by decide, by decide⟩
  intro cfg t pir st hpir
  refine ⟨?_, ?_, ?_, ?_, ?_⟩
  · intro hp hd
    simp [check_motion_sensor, hpir, hp, hd]
  · intro hp hd
    simp [check_motion_sensor, hpir, hp, hd]
  · intro hp hd helapsed
    simp [check_motion_sensor, hpir, hp, hd, helapsed]
  · intro hp hd helapsed
    simp [check_motion_sensor, hpir, hp, hd, Nat.not_le.mpr helapsed]
  · intro hp hd
    simp [check_motion_sensor, hpir, hp, hd]

/-- Witness for C6 at a concrete rising edge. -/
theorem C6_amended_motion_transition_witness :
    (check_motion_sensor pirCfg 5 true initState).1.motionDetected = true ∧
    (check_motion_sensor pirCfg 5 true initState).1.lastMotionTime = 5 :=
  (C6_amended_motion_transition.1 pirCfg 5 true initState rfl).1 rfl rfl

/-- C2: on the claimed scenario — samples [true, false, false, false], timeout
2, unit spacing, starting Idle with the published flag mirroring Idle, every
publish succeeding — the code emits exactly one Active-entry event and ZERO
Active-exit events: when `check_motion_sensor` clears motion it also sets
`motion_state_sent = False` (main.py line 230), so the cleared state compares
equal to the published flag and `publish_motion_event` is never called for the
Idle transition. -/
theorem C2_motion_clear_event_never_published :
    (runLoop pirCfg mainSHT30Methods initState
        [mEnv 0 true true, mEnv 1 false true, mEnv 2 false true,
         mEnv 3 false true]).2.1
      = [Event.motion true true] ∧
    (runLoop pirCfg mainSHT30Methods initState
        [mEnv 0 true true, mEnv 1 false true, mEnv 2 false true,
         mEnv 3 false true]).2.1.count (Event.motion false true) = 0 := by
  exact ⟨by decide, by decide⟩

/-- C3 counterexample: a full sensor cycle starting with error count 3 in
which the read succeeds, the light publish fails and the temperature+humidity
publish succeeds, RESETS the counter to 0 — the failed light publish neither
increments the counter nor prevents the reset (the claim says the counter is
left incremented). -/
theorem C3_counterexample_light_failure_still_resets :
    (loopIter lightCfg importedSHT30Methods lightEnv (stE 3)).1.errorCount = 0 ∧
    (loopIter lightCfg importedSHT30Methods lightEnv (stE 3)).2.1
      = [Event.light .normal false, Event.tempHum true] := by
  exact ⟨by decide, by decide⟩

/-- C3 amended: only the temperature+humidity publish drives the error
counter.  In a full sensor cycle whose read succeeds, the counter becomes 0
if that publish succeeds and old+1 if it fails, independent of the light
publish outcome (main.py: a failed `publish_light_data` at line 387 is only
logged; `error_count` is touched only at lines 404/406). -/
theorem C3_amended_only_temphum_drives_counter :
    ∀ cfg env st r, env.time - st.lastSensorReading ≥ cfg.readingInterval →
      env.readResult = .ok r →
      (loopIter cfg importedSHT30Methods env st).1.errorCount
        = if env.thPubOk then 0 else st.errorCount + 1 := by
  intro cfg env st r hdue hok
  have hm := motionSection_preserves cfg env st
  have hl := lightSection_preserves cfg env (motionSection cfg env st).1
  have hdue1 : env.time - (motionSection cfg env st).1.lastSensorReading
      ≥ cfg.readingInterval := by rw [hm.2]; exact hdue
  have hcall : callReadTempHum importedSHT30Methods env.readResult = .ok r := by
    rw [hok]; rfl
  simp only [loopIter, hcall, if_pos hdue1]
  split_ifs with hth <;> simp [hl.1, hm.1]

/-- Witness for C3 at the concrete cycle of the counterexample. -/
theorem C3_amended_only_temphum_drives_counter_witness :
    (loopIter lightCfg importedSHT30Methods lightEnv (stE 3)).1.errorCount
      = if lightEnv.thPubOk then 0 else (stE 3).errorCount + 1 :=
  C3_amended_only_temphum_drives_counter lightCfg lightEnv (stE 3) (20, 50)
    (by decide) rfl

/-- C4 counterexample: two iterations with the PIR line high and the motion
publish failing.  After the failed publish the error counter is 0 (the claim
says it is incremented) and the second iteration attempts the publish again
(the claim says the lost event is not retried). -/
theorem C4_counterexample_failed_motion_publish :
    (runLoop pirCfg mainSHT30Methods initState
        [mEnv 0 true false, mEnv 1 true false]).1.errorCount = 0 ∧
    (runLoop pirCfg mainSHT30Methods initState
        [mEnv 0 true false, mEnv 1 true false]).2.1
      = [Event.motion true false, Event.motion true false] := by
  exact ⟨by decide, by decide⟩

/-- C4 amended: when the motion state differs from the published flag and the
publish fails, the motion state is not rolled back and the published flag is
left unequal, but the error counter is NOT incremented, and because the loop
re-checks `motion_state != motion_state_sent` every iteration the publish IS
re-attempted while the difference persists. -/
theorem C4_amended_failed_motion_publish :
    (∀ cfg env st, cfg.pirEnabled = true → env.motionPubOk = false →
        (check_motion_sensor cfg env.time env.pir st).2
          ≠ (check_motion_sensor cfg env.time env.pir st).1.motionStateSent →
        (motionSection cfg env st).1
          = (check_motion_sensor cfg env.time env.pir st).1 ∧
        (motionSection cfg env st).2
          = [Event.motion (check_motion_sensor cfg env.time env.pir st).2 false] ∧
        (motionSection cfg env st).1.errorCount = st.errorCount) ∧
    (∀ cfg env st, cfg.pirEnabled = true → env.pir = true →
        st.motionStateSent = false → (motionSection cfg env st).2 ≠ []) := by
  constructor
  · intro cfg env st hpir hpub hdiff
    refine ⟨?_, ?_, ?_⟩ <;>
      simp [motionSection, hpir, hpub, hdiff,
        (check_motion_sensor_preserves cfg env.time env.pir st).1]
  · intro cfg env st hpir hp hsent
    by_cases hd : st.motionDetected = true <;>
      simp [motionSection, check_motion_sensor, hpir, hp, hd, hsent] <;>
      split_ifs <;> simp

/-- Witness for C4 at the concrete failed publish of the counterexample. -/
theorem C4_amended_failed_motion_publish_witness :
    (motionSection pirCfg (mEnv 0 true false) initState).2
      = [Event.motion
          (check_motion_sensor pirCfg (mEnv 0 true false).time
            (mEnv 0 true false).pir initState).2 false] ∧
    (motionSection pirCfg (mEnv 0 true false) initState).1.errorCount
      = initState.errorCount ∧
    (motionSection pirCfg (mEnv 0 true true) initState).2 ≠ [] :=
  ⟨((C4_amended_failed_motion_publish.1 pirCfg (mEnv 0 true false) initState
      rfl rfl (by decide))).2.1,
   ((C4_amended_failed_motion_publish.1 pirCfg (mEnv 0 true false) initState
      rfl rfl (by decide))).2.2,
   C4_amended_failed_motion_publish.2 pirCfg (mEnv 0 true true) initState
      rfl rfl rfl⟩

/-! ## Helper lemmas for the error-ceiling claim -/

lemma loopIterF (N e : Nat) :
    loopIter (cfgF N) importedSHT30Methods envF (stE e)
      = (stE (e + 1), [Event.tempHum false], decide (e + 1 ≥ N)) := rfl

lemma runLoopF_below (N : Nat) :
    ∀ k e, e + k < N →
      runLoop (cfgF N) importedSHT30Methods (stE e) (List.replicate k envF)
        = (stE (e + k), List.replicate k (Event.tempHum false), false) := by
  intro k
  induction k with
  | zero => intro e _; rfl
  | succ k ih =>
      intro e h
      rw [List.replicate_succ]
      have hflag : decide (e + 1 ≥ N) = false := by
        simp only [decide_eq_false_iff_not]
        omega
      simp only [runLoop, loopIterF, hflag, Bool.false_eq_true, if_false]
      rw [ih (e + 1) (by omega)]
      have he : e + 1 + k = e + (k + 1) := by omega
      rw [he, List.replicate_succ]
      rfl

lemma runLoopF_hits (N : Nat) :
    ∀ k e, 1 ≤ k → e + k = N →
      runLoop (cfgF N) importedSHT30Methods (stE e) (List.replicate k envF)
        = (stE N, List.replicate k (Event.tempHum false) ++ [Event.restart],
           true) := by
  intro k
  induction k with
  | zero => intro e h0 _; exact absurd h0 (by norm_num)
  | succ k ih =>
      intro e h1 hsum
      rw [List.replicate_succ]
      by_cases hk : k = 0
      · subst hk
        have hflag : decide (e + 1 ≥ N) = true := by
          simp only [decide_eq_true_eq]
          omega
        simp only [runLoop, loopIterF, hflag, if_true]
        have he : e + 1 = N := by omega
        rw [he]
        rfl
      · have hflag : decide (e + 1 ≥ N) = false := by
          simp only [decide_eq_false_iff_not]
          omega
        simp only [runLoop, loopIterF, hflag, Bool.false_eq_true, if_false]
        rw [ih (e + 1) (by omega) (by omega)]
        rw [List.replicate_succ]
        rfl

lemma count_restart_replicate (n : Nat) :
    (List.replicate n (Event.tempHum false)).count Event.restart = 0 := by
  induction n with
  | zero => rfl
  | succ n ih => rw [List.replicate_succ, List.count_cons]; simp [ih]

/-- C10: `machine.reset()` is never invoked while the error counter is below
the ceiling (the restart flag of an iteration implies the counter reached
`MAX_CONSECUTIVE_ERRORS`), and a run of exactly N consecutive failed cycles
with ceiling N invokes restart exactly once at the N-th failure, with every
shorter run of k < N failures restart-free and leaving the counter at k. -/
theorem C10_restart_exactly_at_ceiling :
    (∀ cfg methods env st,
        (loopIter cfg methods env st).2.2 = true →
        (loopIter cfg methods env st).1.errorCount ≥ cfg.maxErrors) ∧
    (∀ N, 1 ≤ N →
        (runLoop (cfgF N) importedSHT30Methods initState (List.replicate N envF))
          = (stE N, List.replicate N (Event.tempHum false) ++ [Event.restart],
             true) ∧
        (runLoop (cfgF N) importedSHT30Methods initState
            (List.replicate N envF)).2.1.count Event.restart = 1 ∧
        ∀ k, k < N →
          (runLoop (cfgF N) importedSHT30Methods initState
              (List.replicate k envF))
            = (stE k, List.replicate k (Event.tempHum false), false) ∧
          (runLoop (cfgF N) importedSHT30Methods initState
              (List.replicate k envF)).2.1.count Event.restart = 0) := by
  constructor
  · intro cfg methods env st h
    by_cases hdue : env.time - (motionSection cfg env st).1.lastSensorReading
        ≥ cfg.readingInterval
    · cases hcall : callReadTempHum methods env.readResult with
      | error u =>
          simp only [loopIter, hcall, if_pos hdue] at h ⊢
          exact of_decide_eq_true h
      | ok v =>
          simp only [loopIter, hcall, if_pos hdue] at h ⊢
          exact of_decide_eq_true h
    · simp only [loopIter, if_neg hdue] at h ⊢
      exact of_decide_eq_true h
  · intro N hN
    have hrun : runLoop (cfgF N) importedSHT30Methods initState
        (List.replicate N envF)
        = (stE N, List.replicate N (Event.tempHum false) ++ [Event.restart],
           true) := by
      have h0 : initState = stE 0 := rfl
      rw [h0]
      exact runLoopF_hits N N 0 hN (by omega)
    refine ⟨hrun, ?_, ?_⟩
    · rw [hrun]
      simp [List.count_append, count_restart_replicate]
    · intro k hk
      have hrunk : runLoop (cfgF N) importedSHT30Methods initState
          (List.replicate k envF)
          = (stE k, List.replicate k (Event.tempHum false), false) := by
        have h0 : initState = stE 0 := rfl
        rw [h0]
        have hb := runLoopF_below N k 0 (by omega)
        rw [Nat.zero_add] at hb
        exact hb
      exact ⟨hrunk, by rw [hrunk]; exact count_restart_replicate k⟩

/-- Witness for C10 with ceiling 3: three consecutive failed cycles restart
exactly once; two do not restart. -/
theorem C10_restart_exactly_at_ceiling_witness :
    (runLoop (cfgF 3) importedSHT30Methods initState (List.replicate 3 envF)).2.1.count
        Event.restart = 1 ∧
    (runLoop (cfgF 3) importedSHT30Methods initState (List.replicate 2 envF)).2.1.count
        Event.restart = 0 ∧
    (loopIter (cfgF 3) importedSHT30Methods envF (stE 2)).1.errorCount
      ≥ (cfgF 3).maxErrors :=
  ⟨(C10_restart_exactly_at_ceiling.2 3 (by norm_num)).2.1,
   ((C10_restart_exactly_at_ceiling.2 3 (by norm_num)).2.2 2 (by norm_num)).2,
   C10_restart_exactly_at_ceiling.1 (cfgF 3) importedSHT30Methods envF (stE 2)
     (by decide)⟩

end Sht30
